import Mathlib

/-!
Verification of the binding surface declared in src/xpc_wrapper.h.

The repository artifact is a C header declaring a binding surface to the
system XPC library: six type-token variables, three error-sentinel
variables, and four wrapper functions, all guarded by the include guard
_WRAPPER_H_.  The embedding below records the declaration set literally,
and models the behavior that the header's (absent) implementation file and
the external library provide, following the specification's data model.
-/

/-- The C types that appear in the declarations of src/xpc_wrapper.h. -/
inductive CType where
  | void
  | voidPtr
  | boolTy
  | xpcTypeT
  | xpcObjectT
  | xpcConnectionT
deriving DecidableEq

/-- A single C declaration: either a variable with external linkage or a
function prototype. -/
inductive CDecl where
  | var (name : String) (ty : CType)
  | fn (name : String) (args : List CType) (ret : CType)
deriving DecidableEq

/-- The declaration set contributed by src/xpc_wrapper.h, in source order:
lines 8 to 14 declare the xpc_type_t variables, lines 16 to 18 the
xpc_object_t error sentinels, lines 20 to 23 the four function prototypes. -/
def headerDecls : List CDecl :=
  [ CDecl.var "TYPE_ERROR" CType.xpcTypeT,
    CDecl.var "TYPE_ARRAY" CType.xpcTypeT,
    CDecl.var "TYPE_DATA" CType.xpcTypeT,
    CDecl.var "TYPE_DICT" CType.xpcTypeT,
    CDecl.var "TYPE_INT64" CType.xpcTypeT,
    CDecl.var "TYPE_STRING" CType.xpcTypeT,
    CDecl.var "ERROR_CONNECTION_INVALID" CType.xpcObjectT,
    CDecl.var "ERROR_CONNECTION_INTERRUPTED" CType.xpcObjectT,
    CDecl.var "ERROR_CONNECTION_TERMINATED" CType.xpcObjectT,
    CDecl.fn "XpcConnectBlued" [CType.voidPtr] CType.xpcConnectionT,
    CDecl.fn "XpcSendMessage" [CType.xpcConnectionT, CType.xpcObjectT, CType.boolTy] CType.void,
    CDecl.fn "XpcArrayApply" [CType.voidPtr, CType.xpcObjectT] CType.void,
    CDecl.fn "XpcDictApply" [CType.voidPtr, CType.xpcObjectT] CType.void ]

/-- Is this declaration a function prototype? -/
def CDecl.isFn : CDecl → Bool
  | CDecl.fn _ _ _ => true
  | _ => false

/-- Is this declaration a type-token variable (a variable of C type
xpc_type_t)? -/
def CDecl.isTypeTokenVar : CDecl → Bool
  | CDecl.var _ CType.xpcTypeT => true
  | _ => false

/-- Is this declaration an error-sentinel variable (a variable of C type
xpc_object_t)? -/
def CDecl.isSentinelVar : CDecl → Bool
  | CDecl.var _ CType.xpcObjectT => true
  | _ => false

/-- The function prototypes of the header. -/
def functionDecls : List CDecl := headerDecls.filter CDecl.isFn

/-- The type-token variable declarations of the header. -/
def typeTokenDecls : List CDecl := headerDecls.filter CDecl.isTypeTokenVar

/-- The error-sentinel variable declarations of the header. -/
def errorSentinelDecls : List CDecl := headerDecls.filter CDecl.isSentinelVar

/-- Look up the return type of a declared function by name. -/
def fnRet (name : String) : Option CType :=
  headerDecls.findSome? fun d =>
    match d with
    | CDecl.fn n _ r => if n = name then some r else none
    | _ => none

/-- Look up the parameter types of a declared function by name. -/
def fnArgs (name : String) : Option (List CType) :=
  headerDecls.findSome? fun d =>
    match d with
    | CDecl.fn n a _ => if n = name then some a else none
    | _ => none

/-- Look up the C type of a declared variable by name. -/
def varTy (name : String) : Option CType :=
  headerDecls.findSome? fun d =>
    match d with
    | CDecl.var n t => if n = name then some t else none
    | _ => none

/-- Modelled from the spec: the process-wide singleton type tokens that the
missing implementation file assigns to the six declared xpc_type_t
variables.  The spec calls them singleton identifiers for the runtime type
of a message object, distinct and compared by identity; identity comparison
of singletons is equality of these values. -/
inductive XpcTypeToken where
  | error
  | array
  | data
  | dict
  | int64
  | string
deriving DecidableEq

/-- Modelled from the spec: the value of the declared variable TYPE_ERROR. -/
def TYPE_ERROR : XpcTypeToken := XpcTypeToken.error

/-- Modelled from the spec: the value of the declared variable TYPE_ARRAY. -/
def TYPE_ARRAY : XpcTypeToken := XpcTypeToken.array

/-- Modelled from the spec: the value of the declared variable TYPE_DATA. -/
def TYPE_DATA : XpcTypeToken := XpcTypeToken.data

/-- Modelled from the spec: the value of the declared variable TYPE_DICT. -/
def TYPE_DICT : XpcTypeToken := XpcTypeToken.dict

/-- Modelled from the spec: the value of the declared variable TYPE_INT64. -/
def TYPE_INT64 : XpcTypeToken := XpcTypeToken.int64

/-- Modelled from the spec: the value of the declared variable TYPE_STRING. -/
def TYPE_STRING : XpcTypeToken := XpcTypeToken.string

/-- The values of the six declared type-token variables, in declaration
order. -/
def typeTokenValues : List XpcTypeToken :=
  [TYPE_ERROR, TYPE_ARRAY, TYPE_DATA, TYPE_DICT, TYPE_INT64, TYPE_STRING]

/-- Modelled from the spec: the three singleton error-sentinel objects that
the missing implementation file assigns to the declared xpc_object_t
variables, representing terminal connection conditions and compared by
identity. -/
inductive XpcErrorSentinel where
  | connectionInvalid
  | connectionInterrupted
  | connectionTerminated
deriving DecidableEq

/-- Modelled from the spec: the value of ERROR_CONNECTION_INVALID. -/
def ERROR_CONNECTION_INVALID : XpcErrorSentinel := XpcErrorSentinel.connectionInvalid

/-- Modelled from the spec: the value of ERROR_CONNECTION_INTERRUPTED. -/
def ERROR_CONNECTION_INTERRUPTED : XpcErrorSentinel := XpcErrorSentinel.connectionInterrupted

/-- Modelled from the spec: the value of ERROR_CONNECTION_TERMINATED. -/
def ERROR_CONNECTION_TERMINATED : XpcErrorSentinel := XpcErrorSentinel.connectionTerminated

/-- The values of the three declared error-sentinel variables, in
declaration order. -/
def errorSentinelValues : List XpcErrorSentinel :=
  [ERROR_CONNECTION_INVALID, ERROR_CONNECTION_INTERRUPTED, ERROR_CONNECTION_TERMINATED]

/-- C1: the header exports exactly four functions, with exactly the
signatures the claim lists: connect takes one descriptor pointer and
returns a connection handle; send takes a connection handle, a message
object and a boolean flag and returns void; array-apply and dict-apply
each take a context pointer and a message object and return void. -/
theorem header_exports_exactly_four_functions :
    functionDecls =
      [ CDecl.fn "XpcConnectBlued" [CType.voidPtr] CType.xpcConnectionT,
        CDecl.fn "XpcSendMessage"
          [CType.xpcConnectionT, CType.xpcObjectT, CType.boolTy] CType.void,
        CDecl.fn "XpcArrayApply" [CType.voidPtr, CType.xpcObjectT] CType.void,
        CDecl.fn "XpcDictApply" [CType.voidPtr, CType.xpcObjectT] CType.void ] ∧
    functionDecls.length = 4 :=
  ⟨rfl, rfl⟩

/-- C2 counterexample: the claim says the header exports exactly five
type-token variables, but the header declares six of them (TYPE_ERROR,
TYPE_ARRAY, TYPE_DATA, TYPE_DICT, TYPE_INT64, TYPE_STRING). -/
theorem six_type_tokens_not_five :
    typeTokenDecls.length = 6 ∧ typeTokenDecls.length ≠ 5 :=
  ⟨rfl, by decide⟩

/-- C2 amended: the header exports exactly six type-token variables,
namely the tokens for error, array, data, dictionary, int64 and string,
and no others. -/
theorem header_exports_exactly_six_type_tokens :
    typeTokenDecls =
      [ CDecl.var "TYPE_ERROR" CType.xpcTypeT,
        CDecl.var "TYPE_ARRAY" CType.xpcTypeT,
        CDecl.var "TYPE_DATA" CType.xpcTypeT,
        CDecl.var "TYPE_DICT" CType.xpcTypeT,
        CDecl.var "TYPE_INT64" CType.xpcTypeT,
        CDecl.var "TYPE_STRING" CType.xpcTypeT ] ∧
    typeTokenDecls.length = 6 :=
  ⟨rfl, rfl⟩

/-- C3 counterexample: the claim speaks of five declared type tokens, each
unequal to the other four, but six type tokens are declared, and a concrete
token, TYPE_ERROR, compares unequal to five other declared tokens, not
four. -/
theorem type_error_unequal_to_five_others :
    (typeTokenValues.filter (fun t => t ≠ TYPE_ERROR)).length = 5 ∧
    (typeTokenValues.filter (fun t => t ≠ TYPE_ERROR)).length ≠ 4 ∧
    typeTokenValues.length ≠ 5 := by
  refine ⟨?_, ?_, ?_⟩ <;> decide

/-- C3 amended: for every pair of distinct type tokens among the six
declared type tokens, the two tokens compare unequal under identity
comparison: each token compares unequal to the other five. -/
theorem type_tokens_pairwise_distinct :
    List.Pairwise (fun a b => a ≠ b) typeTokenValues ∧
    typeTokenValues.length = 6 ∧
    ∀ t ∈ typeTokenValues, (typeTokenValues.filter (fun u => u ≠ t)).length = 5 := by
  refine ⟨?_, ?_, ?_⟩ <;> decide

/-- Witness for the amended C3 statement: its universally quantified part
applied at the concrete token TYPE_DATA. -/
theorem type_tokens_pairwise_distinct_witness :
    (typeTokenValues.filter (fun u => u ≠ TYPE_DATA)).length = 5 :=
  type_tokens_pairwise_distinct.2.2 TYPE_DATA (by decide)

/-- C4: the header exports exactly three error-sentinel objects, for the
invalid, interrupted and terminated connection conditions, and every pair
of distinct sentinels among the three compares unequal under identity
comparison. -/
theorem error_sentinels_exactly_three_and_distinct :
    errorSentinelDecls =
      [ CDecl.var "ERROR_CONNECTION_INVALID" CType.xpcObjectT,
        CDecl.var "ERROR_CONNECTION_INTERRUPTED" CType.xpcObjectT,
        CDecl.var "ERROR_CONNECTION_TERMINATED" CType.xpcObjectT ] ∧
    errorSentinelDecls.length = 3 ∧
    List.Pairwise (fun a b => a ≠ b) errorSentinelValues := by
  refine ⟨rfl, rfl, ?_⟩
  decide

/-- Modelled from the spec: an XPC message object, the dynamically-typed
value exchanged over a connection.  The spec lists its possible runtime
types: array, byte-buffer, dictionary, 64-bit integer, string, or error.
The real objects live in the external library; this is the shallow
embedding of the spec's data model, needed because the implementation file
behind the header is not part of the sources. -/
inductive XpcObject where
  | array (elems : List XpcObject)
  | data (bytes : List Nat)
  | dict (entries : List (String × XpcObject))
  | int64 (val : Int)
  | string (s : String)
  | error (e : XpcErrorSentinel)

/-- The element-wise loop behind the array visitor: the external library's
array-apply walks indices 0, 1, ... in order, handing each index and
element to the handler together with the running visitor state. -/
def xpcArrayApplyLoop {σ : Type} (handler : σ → Nat → XpcObject → σ) :
    σ → Nat → List XpcObject → σ
  | s, _, [] => s
  | s, i, x :: xs => xpcArrayApplyLoop handler (handler s i x) (i + 1) xs

/-- Modelled from the spec: XpcArrayApply, whose implementation file is not
among the sources.  The spec says it invokes the visitor callback
(identified in C by the context pointer, represented here directly as a
function, the spec's own suggested strategy) once per element of an
array-typed message object, in the array's existing order; it is a side
effect only, so the visitor is state-passing and the result is the final
visitor state. -/
def XpcArrayApply {σ : Type} (handler : σ → Nat → XpcObject → σ) (s : σ) :
    XpcObject → σ
  | XpcObject.array elems => xpcArrayApplyLoop handler s 0 elems
  | _ => s

/-- Modelled from the spec: XpcDictApply, whose implementation file is not
among the sources.  The spec says it invokes the visitor callback once per
key/value pair of a dictionary-typed message object, in an order the
external library does not guarantee; here the dictionary's entry list is
walked in its stored order, one representative of the unspecified orders. -/
def XpcDictApply {σ : Type} (handler : σ → String → XpcObject → σ) (s : σ) :
    XpcObject → σ
  | XpcObject.dict entries => entries.foldl (fun t kv => handler t kv.1 kv.2) s
  | _ => s

/-- Running the array loop with a trace-recording visitor appends the
enumerated elements, indices starting at the loop's start index. -/
theorem xpcArrayApplyLoop_trace (xs : List XpcObject)
    (acc : List (Nat × XpcObject)) (i : Nat) :
    xpcArrayApplyLoop (fun t j x => t ++ [(j, x)]) acc i xs =
      acc ++ xs.enumFrom i := by
  induction xs generalizing acc i with
  | nil => simp [xpcArrayApplyLoop]
  | cons x xs ih =>
      simp [xpcArrayApplyLoop, ih, List.enumFrom]

/-- Running a dictionary fold with a trace-recording visitor appends the
entries in their stored order. -/
theorem dictFold_trace (kvs : List (String × XpcObject))
    (acc : List (String × XpcObject)) :
    kvs.foldl (fun t kv => t ++ [(kv.1, kv.2)]) acc = acc ++ kvs := by
  induction kvs generalizing acc with
  | nil => simp
  | cons kv kvs ih => simp [List.foldl, ih]

/-- C5: on an array-typed object, array-apply invokes the visitor exactly
once per element in the array's existing order: the trace of invocations is
the array's enumeration, so its length is the element count; on the empty
array it performs zero invocations and leaves any visitor state unchanged. -/
theorem array_apply_once_per_element_in_order :
    (∀ xs : List XpcObject,
      XpcArrayApply (fun t j x => t ++ [(j, x)]) [] (XpcObject.array xs) =
        xs.enum ∧
      (XpcArrayApply (fun t j x => t ++ [(j, x)]) [] (XpcObject.array xs)).length =
        xs.length) ∧
    ∀ (σ : Type) (handler : σ → Nat → XpcObject → σ) (s : σ),
      XpcArrayApply handler s (XpcObject.array []) = s := by
  constructor
  · intro xs
    have h : XpcArrayApply (fun t j x => t ++ [(j, x)]) [] (XpcObject.array xs) =
        xs.enum := by
      simp [XpcArrayApply, List.enum, xpcArrayApplyLoop_trace]
    exact ⟨h, by simp [h, List.enum_length]⟩
  · intro σ handler s
    rfl

/-- C6: on a dictionary-typed object with N entries, dict-apply invokes the
visitor exactly N times, once per entry: the invocation trace has length N
and is a permutation of the entry list, with no particular order promised. -/
theorem dict_apply_once_per_entry :
    ∀ kvs : List (String × XpcObject),
      (XpcDictApply (fun t k v => t ++ [(k, v)]) [] (XpcObject.dict kvs)).length =
        kvs.length ∧
      List.Perm (XpcDictApply (fun t k v => t ++ [(k, v)]) [] (XpcObject.dict kvs))
        kvs := by
  intro kvs
  have h : XpcDictApply (fun t k v => t ++ [(k, v)]) [] (XpcObject.dict kvs) =
      kvs := by
    simp [XpcDictApply, dictFold_trace]
  exact ⟨by simp [h], by simp [h]⟩

/-- Modelled from the spec: a connection handle, the reference to an open
channel to a named system service that a successful connect yields.  The
implementation file behind the header is not among the sources, so the
handle is an abstract identifier. -/
structure XpcConnection where
  id : Nat
deriving DecidableEq

/-- Modelled from the spec: XpcConnectBlued, whose implementation file is
not among the sources.  The spec says connect takes a descriptor (here an
optional value, none standing for a null or otherwise invalid descriptor)
and returns either a connection handle or a failure indicator
distinguishable from every valid handle; the model is a total function, so
no input makes it crash. -/
def XpcConnectBlued (descriptor : Option Nat) : Option XpcConnection :=
  match descriptor with
  | none => none
  | some d => some ⟨d⟩

/-- C7: calling connect with a null descriptor is defined (the model is
total, so the process does not crash) and returns the failure indicator,
which differs from every valid connection handle. -/
theorem connect_null_returns_failure_indicator :
    XpcConnectBlued none = none ∧
    ∀ h : XpcConnection, XpcConnectBlued none ≠ some h := by
  refine ⟨rfl, ?_⟩
  intro h hc
  simp [XpcConnectBlued] at hc

/-- Modelled from the spec: the observable events of one send call, used to
state the ordering the spec requires of the synchronous mode.  The message
is submitted, the external library may signal completion of the synchronous
mode, and finally the call returns to the caller. -/
inductive SendEvent where
  | submitted
  | completionSignalled
  | returned
deriving DecidableEq

/-- Modelled from the spec: XpcSendMessage, whose implementation file is
not among the sources.  The spec says send transmits a message over a
connection, surfaces no return value, and with the flag true waits for the
external library to signal completion of the synchronous mode before
returning; the model yields the event trace of the call. -/
def XpcSendMessage (conn : XpcConnection) (msg : XpcObject) (sync : Bool) :
    List SendEvent :=
  if sync then
    [SendEvent.submitted, SendEvent.completionSignalled, SendEvent.returned]
  else
    [SendEvent.submitted, SendEvent.returned]

/-- C8: send is declared void, so no return value reaches the caller, and
for every connection and message a call with the synchronous flag true has
the completion signal in its trace strictly before the return to the
caller. -/
theorem send_sync_returns_after_completion :
    fnRet "XpcSendMessage" = some CType.void ∧
    ∀ (conn : XpcConnection) (msg : XpcObject),
      SendEvent.completionSignalled ∈
        (XpcSendMessage conn msg true).takeWhile
          (fun e => e ≠ SendEvent.returned) := by
  refine ⟨rfl, ?_⟩
  intro conn msg
  simp [XpcSendMessage, List.takeWhile]

/-- The preprocessor state of one translation unit, as far as this header
is concerned: whether the guard macro _WRAPPER_H_ is defined, and the
declarations accumulated so far. -/
structure TUState where
  guardDefined : Bool
  decls : List CDecl
deriving DecidableEq

/-- One textual inclusion of src/xpc_wrapper.h: the #ifndef _WRAPPER_H_
guard skips the whole body when the guard macro is already defined;
otherwise the #define records the macro and the body contributes the
header's declarations. -/
def includeXpcWrapperH (s : TUState) : TUState :=
  if s.guardDefined then s
  else { guardDefined := true, decls := s.decls ++ headerDecls }

/-- Repeated inclusion of the header, n textual inclusions in a row. -/
def includeXpcWrapperHTimes : Nat → TUState → TUState
  | 0, s => s
  | n + 1, s => includeXpcWrapperH (includeXpcWrapperHTimes n s)

/-- C10: including the header is idempotent: a second inclusion changes
nothing, and any positive number of inclusions yields exactly the state of
a single inclusion, so every inclusion after the first contributes no
declarations. -/
theorem include_guard_idempotent :
    (∀ s : TUState,
      includeXpcWrapperH (includeXpcWrapperH s) = includeXpcWrapperH s) ∧
    ∀ (n : Nat) (s : TUState),
      includeXpcWrapperHTimes (n + 1) s = includeXpcWrapperH s := by
  have key : ∀ s : TUState,
      includeXpcWrapperH (includeXpcWrapperH s) = includeXpcWrapperH s := by
    intro s
    by_cases h : s.guardDefined
    · simp [includeXpcWrapperH, h]
    · simp [includeXpcWrapperH, h]
  refine ⟨key, ?_⟩
  intro n
  induction n with
  | zero => intro s; rfl
  | succ m ih =>
      intro s
      calc includeXpcWrapperHTimes (m + 2) s
          = includeXpcWrapperH (includeXpcWrapperHTimes (m + 1) s) := rfl
        _ = includeXpcWrapperH (includeXpcWrapperH s) := by rw [ih]
        _ = includeXpcWrapperH s := key s
